import Mathlib

/-!
Shallow embedding of the mcp-comexstat adapter.

The development models, from src/ComexstatClient.ts, the HTTP request
mapper of class ComexstatClient (get, post, handleError, queryData,
queryMunicipalitiesData, queryHistoricalData, getFilterValues,
getAuxiliaryTable, getEconomicBlocks, getHarmonizedSystem, getNBM), and,
from src/ComexstatMCP.ts, the zod argument schemas registered for the
corresponding tools.  JSON values are a simple inductive type; the HTTP
transport is an oracle function from requests to results; each client
call returns its result together with the list of requests it issued and
the console.error log entries it produced, so that statements about
"no HTTP call is made" or "logs before rethrowing" are expressible.
-/

/-- JSON values exchanged with the Comexstat API.  Numbers are modelled
as integers, which covers every value the adapter itself constructs or
inspects (country codes, page numbers, page sizes). -/
inductive Json where
  | null : Json
  | bool : Bool → Json
  | num : Int → Json
  | str : String → Json
  | arr : List Json → Json
  | obj : List (String × Json) → Json

/-- Field lookup in a JSON object literal, first binding wins. -/
def lookupField : List (String × Json) → String → Option Json
  | [], _ => none
  | (k, v) :: rest, key => if k = key then some v else lookupField rest key

/-- Property access `j[k]`: `some` when the value is an object carrying
the field, `none` (JavaScript undefined) otherwise. -/
def Json.getField : Json → String → Option Json
  | .obj fs, k => lookupField fs k
  | _, _ => none

/-- JavaScript truthiness, as used by the `data?.message || error.message`
fallback inside handleError. -/
def jsTruthy : Json → Bool
  | .null => false
  | .bool b => b
  | .num n => n != 0
  | .str s => s != ""
  | .arr _ => true
  | .obj _ => true

/-- The JavaScript `a || b` operator on JSON values. -/
def jsOr (a b : Json) : Json :=
  if jsTruthy a then a else b

/-- The date-format regex of the source, `^\d{4}-\d{2}$`: four digits, a
hyphen, two digits, and nothing else. -/
def isYYYYMM (s : String) : Bool :=
  match s.data with
  | [y1, y2, y3, y4, d, m1, m2] =>
    y1.isDigit && y2.isDigit && y3.isDigit && y4.isDigit &&
      d == '-' && m1.isDigit && m2.isDigit
  | _ => false

/-- HTTP method used by the client. -/
inductive Method where
  | get : Method
  | post : Method

/-- One outbound HTTP request: method, endpoint path, query parameters
(`none` models a key whose value is JavaScript undefined, which axios
drops from the serialized query string), and optional JSON body. -/
structure HttpRequest where
  method : Method
  endpoint : String
  params : List (String × Option Json)
  body : Option Json

/-- The query parameters axios actually serializes: keys whose value is
undefined are dropped. -/
def effectiveParams (ps : List (String × Option Json)) : List (String × Json) :=
  ps.filterMap (fun kv =>
    match kv with
    | (k, some v) => some (k, v)
    | (_, none) => none)

/-- What the transport reports for one request: a success body (status
below 400, per the validateStatus configuration), an HTTP error response
with status at least 400, or a transport failure with no response. -/
inductive HttpResult where
  | success : Json → HttpResult
  | httpError : Nat → Json → HttpResult
  | transportError : String → HttpResult

/-- An HTTP transport oracle: the environment answering each request. -/
def Transport : Type := HttpRequest → HttpResult

/-- console.error entries produced by handleError: the
`API Error (status): message` line for axios errors, the generic line
for anything else. -/
inductive LogEntry where
  | apiError : Option Nat → Json → LogEntry
  | nonAxiosError : LogEntry

/-- Errors surfaced by the client.  `upstream` carries the apiError
enhancement of status, message and endpoint that handleError attaches
before the error is rethrown; `malformedPeriod` is the pre-flight
date-format Error thrown by the three query methods; `jsTypeError`
models a runtime TypeError raised while shaping a response. -/
inductive ApiError where
  | malformedPeriod : String → ApiError
  | upstream : Option Nat → Json → String → ApiError
  | jsTypeError : String → ApiError

/-- Outcome of one client call: the returned value or thrown error,
the requests issued on the wire, and the console log entries. -/
structure CallOutcome (α : Type) where
  result : Except ApiError α
  requests : List HttpRequest
  logs : List LogEntry

/-- The generic axios error message for a rejected response. -/
def axiosHttpMessage (status : Nat) : String :=
  "Request failed with status code " ++ toString status

namespace ComexstatClient

/-- handleError from the source: status is response?.status, message is
`data?.message || error.message`, endpoint is config?.url; it logs
`API Error (status): message` and attaches the status, message and
endpoint to the error, which the caller then rethrows. -/
def handleError (status : Option Nat) (data : Option Json)
    (axiosMessage : String) (endpoint : String) : ApiError × LogEntry :=
  let dataMessage : Json :=
    match data with
    | some d =>
      match d.getField "message" with
      | some v => v
      | none => Json.null
    | none => Json.null
  let message := jsOr dataMessage (Json.str axiosMessage)
  (ApiError.upstream status message endpoint, LogEntry.apiError status message)

/-- Shared completion of one axios call: on success return the response
body; on an HTTP error or transport failure run handleError and rethrow.
The request is handed to the transport in every branch. -/
def completeRequest (t : Transport) (req : HttpRequest) : CallOutcome Json :=
  match t req with
  | .success env => ⟨Except.ok env, [req], []⟩
  | .httpError status body =>
    let el := handleError (some status) (some body) (axiosHttpMessage status) req.endpoint
    ⟨Except.error el.1, [req], [el.2]⟩
  | .transportError m =>
    let el := handleError none none m req.endpoint
    ⟨Except.error el.1, [req], [el.2]⟩

/-- ComexstatClient.get: one GET with optional query parameters. -/
def get (t : Transport) (endpoint : String)
    (params : List (String × Option Json)) : CallOutcome Json :=
  completeRequest t ⟨Method.get, endpoint, params, none⟩

/-- ComexstatClient.post: one POST with a JSON body and optional query
parameters. -/
def post (t : Transport) (endpoint : String) (data : Json)
    (params : List (String × Option Json)) : CallOutcome Json :=
  completeRequest t ⟨Method.post, endpoint, params, some data⟩

end ComexstatClient

/-- A query period, two month strings in YYYY-MM format. -/
structure Period where
  «from» : String
  «to» : String

/-- One filter clause of queryData / queryMunicipalitiesData:
a filter name and numeric values. -/
structure FilterClause where
  filter : String
  values : List Int

/-- JSON encoding of a filter clause as sent on the wire. -/
def FilterClause.toJson (f : FilterClause) : Json :=
  Json.obj [("filter", Json.str f.filter),
            ("values", Json.arr (f.values.map Json.num))]

/-- Values of a historical filter clause: number[] or string[]. -/
inductive HValues where
  | nums : List Int → HValues
  | strs : List String → HValues

/-- One filter clause of queryHistoricalData. -/
structure HFilterClause where
  filter : String
  values : HValues

/-- JSON encoding of a historical filter clause. -/
def HFilterClause.toJson (f : HFilterClause) : Json :=
  Json.obj [("filter", Json.str f.filter),
            ("values",
              match f.values with
              | HValues.nums vs => Json.arr (vs.map Json.num)
              | HValues.strs vs => Json.arr (vs.map Json.str))]

/-- JSON encoding of a period object. -/
def Period.toJson (p : Period) : Json :=
  Json.obj [("from", Json.str p.«from»), ("to", Json.str p.«to»)]

/-- The POST body the three query methods build: the object literal
with fields flow, monthDetail, period, filters, details and metrics,
the filters already encoded. -/
def queryBody (flow : String) (monthDetail : Bool) (period : Period)
    (filters : List Json) (details metrics : List String) : Json :=
  Json.obj [("flow", Json.str flow),
            ("monthDetail", Json.bool monthDetail),
            ("period", period.toJson),
            ("filters", Json.arr filters),
            ("details", Json.arr (details.map Json.str)),
            ("metrics", Json.arr (metrics.map Json.str))]

/-- The error message thrown when the pre-flight date check fails. -/
def periodErrorMessage : String :=
  "Period dates must be in YYYY-MM format (e.g., \"2023-01\")"

/-- The request queryData sends when the pre-flight check passes. -/
def queryDataRequest (flow : String) (period : Period) (monthDetail : Bool)
    (filters : List FilterClause) (details metrics : List String)
    (language : String) : HttpRequest :=
  ⟨Method.post, "/general", [("language", some (Json.str language))],
   some (queryBody flow monthDetail period (filters.map FilterClause.toJson)
      details metrics)⟩

namespace ComexstatClient

/-- ComexstatClient.queryData: re-validates the two period strings
against the YYYY-MM regex, throws before any request when either fails,
and otherwise POSTs the object with fields flow, monthDetail, period,
filters, details and metrics to /general with query parameter
language. -/
def queryData (t : Transport) (flow : String) (period : Period)
    (monthDetail : Bool) (filters : List FilterClause)
    (details metrics : List String) (language : String) : CallOutcome Json :=
  if ¬ (isYYYYMM period.«from» && isYYYYMM period.«to») then
    ⟨Except.error (ApiError.malformedPeriod periodErrorMessage), [], []⟩
  else
    post t "/general"
      (queryBody flow monthDetail period (filters.map FilterClause.toJson)
        details metrics)
      [("language", some (Json.str language))]

/-- ComexstatClient.queryMunicipalitiesData: same pre-flight date check,
then POST to /cities with the same body shape. -/
def queryMunicipalitiesData (t : Transport) (flow : String) (period : Period)
    (monthDetail : Bool) (filters : List FilterClause)
    (details metrics : List String) (language : String) : CallOutcome Json :=
  if ¬ (isYYYYMM period.«from» && isYYYYMM period.«to») then
    ⟨Except.error (ApiError.malformedPeriod periodErrorMessage), [], []⟩
  else
    post t "/cities"
      (queryBody flow monthDetail period (filters.map FilterClause.toJson)
        details metrics)
      [("language", some (Json.str language))]

/-- ComexstatClient.queryHistoricalData: same pre-flight date check,
then POST to /historical-data with the same body shape; filter values
may be numbers or strings. -/
def queryHistoricalData (t : Transport) (flow : String) (period : Period)
    (monthDetail : Bool) (filters : List HFilterClause)
    (details metrics : List String) (language : String) : CallOutcome Json :=
  if ¬ (isYYYYMM period.«from» && isYYYYMM period.«to») then
    ⟨Except.error (ApiError.malformedPeriod periodErrorMessage), [], []⟩
  else
    post t "/historical-data"
      (queryBody flow monthDetail period (filters.map HFilterClause.toJson)
        details metrics)
      [("language", some (Json.str language))]

/-- ComexstatClient.getFilterValues: GET /general/filters/{filter} with
query parameter language, then shape the envelope as response.data[0].
Indexing a JavaScript array at 0 yields its head element or undefined
when it is empty; indexing a non-array envelope field is a TypeError. -/
def getFilterValues (t : Transport) (filter language : String) :
    CallOutcome (Option Json) :=
  let o := get t ("/general/filters/" ++ filter)
    [("language", some (Json.str language))]
  match o.result with
  | Except.error e => ⟨Except.error e, o.requests, o.logs⟩
  | Except.ok env =>
    match env.getField "data" with
    | some (Json.arr xs) => ⟨Except.ok xs.head?, o.requests, o.logs⟩
    | _ => ⟨Except.error (ApiError.jsTypeError "response.data is not an array"),
            o.requests, o.logs⟩

/-- ComexstatClient.getAuxiliaryTable: GET /auxiliary/{table} with query
parameters search, page and pageSize; the TypeScript parameter defaults
page = 1 and pageSize = 100 apply when the caller passes undefined. -/
def getAuxiliaryTable (t : Transport) (table : String)
    (search : Option String) (page pageSize : Option Int) : CallOutcome Json :=
  get t ("/auxiliary/" ++ table)
    [("search", search.map Json.str),
     ("page", some (Json.num (page.getD 1))),
     ("pageSize", some (Json.num (pageSize.getD 100)))]

end ComexstatClient

/-- Options object of ComexstatClient.getEconomicBlocks. -/
structure EconomicBlocksOptions where
  language : Option String
  add : Option String
  search : Option String

/-- Options object of ComexstatClient.getHarmonizedSystem. -/
structure HarmonizedSystemOptions where
  language : Option String
  page : Option Int
  perPage : Option Int
  add : Option String

/-- Options object of ComexstatClient.getNBM. -/
structure NBMOptions where
  language : Option String
  page : Option Int
  perPage : Option Int
  add : Option String
  search : Option String

namespace ComexstatClient

/-- ComexstatClient.getEconomicBlocks: GET /tables/economic-blocks with
the options object spread into the query parameters. -/
def getEconomicBlocks (t : Transport) (options : EconomicBlocksOptions) :
    CallOutcome Json :=
  get t "/tables/economic-blocks"
    [("language", options.language.map Json.str),
     ("add", options.add.map Json.str),
     ("search", options.search.map Json.str)]

/-- ComexstatClient.getHarmonizedSystem: GET /tables/hs with the options
object spread into the query parameters. -/
def getHarmonizedSystem (t : Transport) (options : HarmonizedSystemOptions) :
    CallOutcome Json :=
  get t "/tables/hs"
    [("language", options.language.map Json.str),
     ("page", options.page.map Json.num),
     ("perPage", options.perPage.map Json.num),
     ("add", options.add.map Json.str)]

/-- ComexstatClient.getNBM: GET /tables/nbm with the options object
spread into the query parameters. -/
def getNBM (t : Transport) (options : NBMOptions) : CallOutcome Json :=
  get t "/tables/nbm"
    [("language", options.language.map Json.str),
     ("page", options.page.map Json.num),
     ("perPage", options.perPage.map Json.num),
     ("add", options.add.map Json.str),
     ("search", options.search.map Json.str)]

end ComexstatClient

/-- The zod enum of queryData.flow. -/
def flowEnum : List String := ["export", "import"]

/-- The zod enum of queryData filter names and detail fields. -/
def filterEnum : List String :=
  ["country", "state", "economicBlock", "section", "chapter",
   "position", "subposition", "ncm"]

/-- The zod enum of queryData metrics. -/
def metricsEnum : List String :=
  ["metricFOB", "metricKG", "metricStatistic", "metricFreight",
   "metricInsurance", "metricCIF"]

/-- z.string(): accept exactly JSON strings. -/
def parseString (j : Json) : Except String String :=
  match j with
  | Json.str s => Except.ok s
  | _ => Except.error "Expected string"

/-- z.boolean(): accept exactly JSON booleans. -/
def parseBool (j : Json) : Except String Bool :=
  match j with
  | Json.bool b => Except.ok b
  | _ => Except.error "Expected boolean"

/-- z.number(): accept exactly JSON numbers. -/
def parseNum (j : Json) : Except String Int :=
  match j with
  | Json.num n => Except.ok n
  | _ => Except.error "Expected number"

/-- z.enum([...]): accept exactly the listed string literals. -/
def parseEnum (allowed : List String) (j : Json) : Except String String :=
  match j with
  | Json.str s =>
    if s ∈ allowed then Except.ok s else Except.error ("Invalid enum value: " ++ s)
  | _ => Except.error "Expected enum string"

/-- z.string().regex(dateFormatRegex): a string matching YYYY-MM. -/
def parseYYYYMM (j : Json) : Except String String :=
  match j with
  | Json.str s =>
    if isYYYYMM s then Except.ok s
    else Except.error "Must be in YYYY-MM format"
  | _ => Except.error "Expected string"

/-- A required field of a z.object schema. -/
def reqField {α : Type} (raw : Json) (k : String)
    (p : Json → Except String α) : Except String α :=
  match raw.getField k with
  | none => Except.error ("Required field missing: " ++ k)
  | some v => p v

/-- An optional field of a z.object schema: absent keys validate to
`none`. -/
def optField {α : Type} (raw : Json) (k : String)
    (p : Json → Except String α) : Except String (Option α) :=
  match raw.getField k with
  | none => Except.ok none
  | some v => Except.bind (p v) fun a => Except.ok (some a)

/-- An optional field with a zod .default(d): absent keys validate to
the default. -/
def defField {α : Type} (raw : Json) (k : String) (d : α)
    (p : Json → Except String α) : Except String α :=
  match raw.getField k with
  | none => Except.ok d
  | some v => p v

/-- Element-wise validation of a JSON array body. -/
def parseListAux {α : Type} (p : Json → Except String α) :
    List Json → Except String (List α)
  | [] => Except.ok []
  | x :: xs =>
    Except.bind (p x) fun a =>
    Except.bind (parseListAux p xs) fun as =>
    Except.ok (a :: as)

/-- z.array(T): accept exactly JSON arrays with every element valid. -/
def parseArr {α : Type} (p : Json → Except String α) (j : Json) :
    Except String (List α) :=
  match j with
  | Json.arr xs => parseListAux p xs
  | _ => Except.error "Expected array"

/-- The period object schema of the three query tools. -/
def parsePeriod (j : Json) : Except String Period :=
  Except.bind (reqField j "from" parseYYYYMM) fun f =>
  Except.bind (reqField j "to" parseYYYYMM) fun t =>
  Except.ok ⟨f, t⟩

/-- The queryData filter-clause schema: filter constrained to the
8-value enum, values an array of numbers. -/
def parseFilterClause (j : Json) : Except String FilterClause :=
  Except.bind (reqField j "filter" (parseEnum filterEnum)) fun f =>
  Except.bind (reqField j "values" (parseArr parseNum)) fun vs =>
  Except.ok ⟨f, vs⟩

/-- The normalized arguments of a validated queryData call. -/
structure QueryDataArgs where
  flow : String
  monthDetail : Bool
  period : Period
  filters : Option (List FilterClause)
  details : List String
  metrics : List String
  language : String

/-- The zod schema registered for the queryData tool. -/
def parseQueryDataArgs (raw : Json) : Except String QueryDataArgs :=
  Except.bind (reqField raw "flow" (parseEnum flowEnum)) fun flow =>
  Except.bind (reqField raw "monthDetail" parseBool) fun monthDetail =>
  Except.bind (reqField raw "period" parsePeriod) fun period =>
  Except.bind (optField raw "filters" (parseArr parseFilterClause)) fun filters =>
  Except.bind (reqField raw "details" (parseArr (parseEnum filterEnum))) fun details =>
  Except.bind (reqField raw "metrics" (parseArr (parseEnum metricsEnum))) fun metrics =>
  Except.bind (defField raw "language" "pt" parseString) fun language =>
  Except.ok ⟨flow, monthDetail, period, filters, details, metrics, language⟩

/-- Errors surfaced at the tool boundary: a schema validation failure
(no handler runs) or an error propagated from the client. -/
inductive ToolError where
  | validation : String → ToolError
  | api : ApiError → ToolError

/-- Outcome of one tool invocation: result or error, requests issued,
log entries produced. -/
structure ToolOutcome (α : Type) where
  result : Except ToolError α
  requests : List HttpRequest
  logs : List LogEntry

/-- The registered queryData tool: validate the raw arguments against
the schema, then hand the normalized record to the client with
`filters || []`. -/
def runQueryDataTool (t : Transport) (raw : Json) : ToolOutcome Json :=
  match parseQueryDataArgs raw with
  | Except.error e => ⟨Except.error (ToolError.validation e), [], []⟩
  | Except.ok args =>
    let o := ComexstatClient.queryData t args.flow args.period args.monthDetail
      (args.filters.getD []) args.details args.metrics args.language
    ⟨o.result.mapError ToolError.api, o.requests, o.logs⟩

/-- The normalized arguments of a validated getAuxiliaryTable call. -/
structure AuxiliaryTableArgs where
  table : String
  search : Option String
  page : Option Int
  pageSize : Option Int

/-- The zod schema registered for the getAuxiliaryTable tool. -/
def parseAuxiliaryTableArgs (raw : Json) : Except String AuxiliaryTableArgs :=
  Except.bind (reqField raw "table" parseString) fun table =>
  Except.bind (optField raw "search" parseString) fun search =>
  Except.bind (optField raw "page" parseNum) fun page =>
  Except.bind (optField raw "pageSize" parseNum) fun pageSize =>
  Except.ok ⟨table, search, page, pageSize⟩

/-- The registered getAuxiliaryTable tool. -/
def runGetAuxiliaryTableTool (t : Transport) (raw : Json) : ToolOutcome Json :=
  match parseAuxiliaryTableArgs raw with
  | Except.error e => ⟨Except.error (ToolError.validation e), [], []⟩
  | Except.ok args =>
    let o := ComexstatClient.getAuxiliaryTable t args.table args.search
      args.page args.pageSize
    ⟨o.result.mapError ToolError.api, o.requests, o.logs⟩

/-- The normalized arguments of a validated getEconomicBlocks call. -/
structure EconomicBlocksArgs where
  language : String
  add : Option String
  search : Option String

/-- The zod schema registered for the getEconomicBlocks tool: language
optional with default "pt", add and search optional. -/
def parseEconomicBlocksArgs (raw : Json) : Except String EconomicBlocksArgs :=
  Except.bind (defField raw "language" "pt" parseString) fun language =>
  Except.bind (optField raw "add" parseString) fun add =>
  Except.bind (optField raw "search" parseString) fun search =>
  Except.ok ⟨language, add, search⟩

/-- The registered getEconomicBlocks tool. -/
def runGetEconomicBlocksTool (t : Transport) (raw : Json) : ToolOutcome Json :=
  match parseEconomicBlocksArgs raw with
  | Except.error e => ⟨Except.error (ToolError.validation e), [], []⟩
  | Except.ok args =>
    let o := ComexstatClient.getEconomicBlocks t
      ⟨some args.language, args.add, args.search⟩
    ⟨o.result.mapError ToolError.api, o.requests, o.logs⟩

/-- The normalized arguments of a validated getHarmonizedSystem call. -/
structure HarmonizedSystemArgs where
  language : String
  page : Int
  perPage : Int
  add : Option String

/-- The zod schema registered for the getHarmonizedSystem tool: language
defaults "pt", page defaults 1, perPage defaults 10, add optional. -/
def parseHarmonizedSystemArgs (raw : Json) :
    Except String HarmonizedSystemArgs :=
  Except.bind (defField raw "language" "pt" parseString) fun language =>
  Except.bind (defField raw "page" 1 parseNum) fun page =>
  Except.bind (defField raw "perPage" 10 parseNum) fun perPage =>
  Except.bind (optField raw "add" parseString) fun add =>
  Except.ok ⟨language, page, perPage, add⟩

/-- The registered getHarmonizedSystem tool. -/
def runGetHarmonizedSystemTool (t : Transport) (raw : Json) : ToolOutcome Json :=
  match parseHarmonizedSystemArgs raw with
  | Except.error e => ⟨Except.error (ToolError.validation e), [], []⟩
  | Except.ok args =>
    let o := ComexstatClient.getHarmonizedSystem t
      ⟨some args.language, some args.page, some args.perPage, args.add⟩
    ⟨o.result.mapError ToolError.api, o.requests, o.logs⟩

/-- The normalized arguments of a validated getNBM call. -/
structure NBMArgs where
  language : String
  page : Int
  perPage : Int
  add : Option String
  search : Option String

/-- The zod schema registered for the getNBM tool: language defaults
"pt", page defaults 1, perPage defaults 5, add and search optional. -/
def parseNBMArgs (raw : Json) : Except String NBMArgs :=
  Except.bind (defField raw "language" "pt" parseString) fun language =>
  Except.bind (defField raw "page" 1 parseNum) fun page =>
  Except.bind (defField raw "perPage" 5 parseNum) fun perPage =>
  Except.bind (optField raw "add" parseString) fun add =>
  Except.bind (optField raw "search" parseString) fun search =>
  Except.ok ⟨language, page, perPage, add, search⟩

/-- The registered getNBM tool. -/
def runGetNBMTool (t : Transport) (raw : Json) : ToolOutcome Json :=
  match parseNBMArgs raw with
  | Except.error e => ⟨Except.error (ToolError.validation e), [], []⟩
  | Except.ok args =>
    let o := ComexstatClient.getNBM t
      ⟨some args.language, some args.page, some args.perPage, args.add,
       args.search⟩
    ⟨o.result.mapError ToolError.api, o.requests, o.logs⟩

/-- The registered getFilterValues tool: filter required, language
optional; the client applies its own default "pt" when language is
omitted. -/
def runGetFilterValuesTool (t : Transport) (raw : Json) :
    ToolOutcome (Option Json) :=
  match reqField raw "filter" parseString with
  | Except.error e => ⟨Except.error (ToolError.validation e), [], []⟩
  | Except.ok filter =>
    match optField raw "language" parseString with
    | Except.error e => ⟨Except.error (ToolError.validation e), [], []⟩
    | Except.ok language =>
      let o := ComexstatClient.getFilterValues t filter (language.getD "pt")
      ⟨o.result.mapError ToolError.api, o.requests, o.logs⟩

/-- Running the same queryData client call twice in sequence: the wire
trace is the concatenation of the two calls' request lists.  The client
holds no state between calls, so each run is the same function of the
same arguments. -/
def runQueryDataTwice (t : Transport) (flow : String) (period : Period)
    (monthDetail : Bool) (filters : List FilterClause)
    (details metrics : List String) (language : String) : List HttpRequest :=
  (ComexstatClient.queryData t flow period monthDetail filters details
      metrics language).requests ++
  (ComexstatClient.queryData t flow period monthDetail filters details
      metrics language).requests

/-- A transport stub answering every request with a fixed success
envelope. -/
def stubTransport (env : Json) : Transport :=
  fun _ => HttpResult.success env

/-- A transport stub answering every request with HTTP 400 and the body
carrying message "Invalid parameters". -/
def http400Transport : Transport :=
  fun _ => HttpResult.httpError 400
    (Json.obj [("message", Json.str "Invalid parameters")])

/-- A getFilterValues envelope whose data field wraps the country list
in an extra array layer followed by a second entry. -/
def filterValuesEnv : Json :=
  Json.obj [("data", Json.arr
              [Json.arr [Json.obj [("id", Json.str "1"),
                                   ("text", Json.str "Brazil")]],
               Json.arr [Json.obj [("id", Json.str "2"),
                                   ("text", Json.str "Argentina")]]]),
            ("success", Json.bool true),
            ("message", Json.null)]

/-- A getFilterValues envelope whose data field is an empty array. -/
def emptyDataEnv : Json :=
  Json.obj [("data", Json.arr []),
            ("success", Json.bool true),
            ("message", Json.null)]

/-- The raw arguments of a concrete valid queryData invocation. -/
def exampleQueryRaw : Json :=
  Json.obj [("flow", Json.str "export"),
            ("monthDetail", Json.bool false),
            ("period", Json.obj [("from", Json.str "2023-01"),
                                 ("to", Json.str "2023-12")]),
            ("filters", Json.arr [Json.obj
              [("filter", Json.str "country"),
               ("values", Json.arr [Json.num 105])]]),
            ("details", Json.arr [Json.str "country", Json.str "state"]),
            ("metrics", Json.arr [Json.str "metricFOB",
                                  Json.str "metricKG"])]

/-- The normalized record the schema produces for exampleQueryRaw. -/
def exampleQueryArgs : QueryDataArgs :=
  ⟨"export", false, ⟨"2023-01", "2023-12"⟩,
   some [⟨"country", [105]⟩], ["country", "state"],
   ["metricFOB", "metricKG"], "pt"⟩

/-- Inversion for a successful Except.bind. -/
theorem bind_ok_inv {ε α β : Type} {e : Except ε α} {f : α → Except ε β} {b : β}
    (h : Except.bind e f = Except.ok b) :
    ∃ a, e = Except.ok a ∧ f a = Except.ok b := by
  cases e with
  | error err => simp [Except.bind] at h
  | ok a => exact ⟨a, rfl, h⟩

/-- A required field validates only when present and valid. -/
theorem reqField_ok {α : Type} {raw : Json} {k : String}
    {p : Json → Except String α} {a : α}
    (h : reqField raw k p = Except.ok a) :
    ∃ v, raw.getField k = some v ∧ p v = Except.ok a := by
  unfold reqField at h
  cases hg : raw.getField k with
  | none => rw [hg] at h; cases h
  | some v => rw [hg] at h; exact ⟨v, rfl, h⟩

/-- An optional field validates to none when absent, or through its
element validator when present. -/
theorem optField_ok {α : Type} {raw : Json} {k : String}
    {p : Json → Except String α} {o : Option α}
    (h : optField raw k p = Except.ok o) :
    (raw.getField k = none ∧ o = none) ∨
      (∃ v a, raw.getField k = some v ∧ p v = Except.ok a ∧ o = some a) := by
  unfold optField at h
  cases hg : raw.getField k with
  | none => rw [hg] at h; cases h; exact Or.inl ⟨rfl, rfl⟩
  | some v =>
    rw [hg] at h
    obtain ⟨a, hp, ha⟩ := bind_ok_inv h
    cases ha
    exact Or.inr ⟨v, a, rfl, hp, rfl⟩

/-- A defaulted field validates to the default when absent, or through
its element validator when present. -/
theorem defField_ok {α : Type} {raw : Json} {k : String} {d a : α}
    {p : Json → Except String α}
    (h : defField raw k d p = Except.ok a) :
    (raw.getField k = none ∧ a = d) ∨
      (∃ v, raw.getField k = some v ∧ p v = Except.ok a) := by
  unfold defField at h
  cases hg : raw.getField k with
  | none => rw [hg] at h; cases h; exact Or.inl ⟨rfl, rfl⟩
  | some v => rw [hg] at h; exact Or.inr ⟨v, rfl, h⟩

/-- An enum field validates only to a string literal of the allowed
list. -/
theorem parseEnum_ok {allowed : List String} {j : Json} {s : String}
    (h : parseEnum allowed j = Except.ok s) :
    j = Json.str s ∧ s ∈ allowed := by
  cases j <;> simp [parseEnum] at h
  case str s0 =>
    by_cases hmem : s0 ∈ allowed
    · simp [hmem] at h; cases h; exact ⟨rfl, hmem⟩
    · simp [hmem] at h

/-- A regex-constrained date field validates only to a matching
string. -/
theorem parseYYYYMM_ok {j : Json} {s : String}
    (h : parseYYYYMM j = Except.ok s) :
    j = Json.str s ∧ isYYYYMM s = true := by
  cases j <;> simp [parseYYYYMM] at h
  case str s0 =>
    by_cases hm : isYYYYMM s0
    · simp [hm] at h; cases h; exact ⟨rfl, hm⟩
    · simp [hm] at h

/-- A validated period has both bounds matching the YYYY-MM pattern. -/
theorem parsePeriod_ok {j : Json} {p : Period}
    (h : parsePeriod j = Except.ok p) :
    isYYYYMM p.«from» = true ∧ isYYYYMM p.«to» = true := by
  unfold parsePeriod at h
  obtain ⟨f, hf, h⟩ := bind_ok_inv h
  obtain ⟨t, ht, h⟩ := bind_ok_inv h
  cases h
  obtain ⟨vf, _, hvf⟩ := reqField_ok hf
  obtain ⟨vt, _, hvt⟩ := reqField_ok ht
  exact ⟨(parseYYYYMM_ok hvf).2, (parseYYYYMM_ok hvt).2⟩

/-- A validated filter clause carries a filter name from the 8-value
enum, present as a string field of the raw clause object. -/
theorem parseFilterClause_ok {j : Json} {c : FilterClause}
    (h : parseFilterClause j = Except.ok c) :
    ∃ s, s ∈ filterEnum ∧ j.getField "filter" = some (Json.str s) := by
  unfold parseFilterClause at h
  obtain ⟨f, hf, h⟩ := bind_ok_inv h
  obtain ⟨vf, hget, hvf⟩ := reqField_ok hf
  obtain ⟨hj, hmem⟩ := parseEnum_ok hvf
  exact ⟨f, hmem, by rw [hget, hj]⟩

/-- Every element of a successfully validated array body validates. -/
theorem parseListAux_ok_mem {α : Type} {p : Json → Except String α}
    {xs : List Json} {l : List α} {x : Json}
    (h : parseListAux p xs = Except.ok l) (hx : x ∈ xs) :
    ∃ a, p x = Except.ok a := by
  induction xs generalizing l with
  | nil => cases hx
  | cons y ys ih =>
    unfold parseListAux at h
    obtain ⟨a, ha, h⟩ := bind_ok_inv h
    obtain ⟨as, has, h⟩ := bind_ok_inv h
    cases hx with
    | head => exact ⟨a, ha⟩
    | tail _ hmem => exact ih has hmem

/-- A successfully validated array field was an array whose elements
all validate. -/
theorem parseArr_ok {α : Type} {p : Json → Except String α} {j : Json}
    {l : List α} (h : parseArr p j = Except.ok l) :
    ∃ xs, j = Json.arr xs ∧ ∀ x ∈ xs, ∃ a, p x = Except.ok a := by
  cases j <;> simp [parseArr] at h
  case arr xs => exact ⟨xs, rfl, fun x hx => parseListAux_ok_mem h hx⟩

/-- Full inversion of the queryData schema: a successful validation
pins every field validator to the corresponding component of the
normalized record. -/
theorem parseQueryDataArgs_ok_inv {raw : Json} {args : QueryDataArgs}
    (h : parseQueryDataArgs raw = Except.ok args) :
    reqField raw "flow" (parseEnum flowEnum) = Except.ok args.flow ∧
    reqField raw "monthDetail" parseBool = Except.ok args.monthDetail ∧
    reqField raw "period" parsePeriod = Except.ok args.period ∧
    optField raw "filters" (parseArr parseFilterClause) = Except.ok args.filters ∧
    reqField raw "details" (parseArr (parseEnum filterEnum)) = Except.ok args.details ∧
    reqField raw "metrics" (parseArr (parseEnum metricsEnum)) = Except.ok args.metrics ∧
    defField raw "language" "pt" parseString = Except.ok args.language := by
  unfold parseQueryDataArgs at h
  obtain ⟨flow, h1, h⟩ := bind_ok_inv h
  obtain ⟨monthDetail, h2, h⟩ := bind_ok_inv h
  obtain ⟨period, h3, h⟩ := bind_ok_inv h
  obtain ⟨filters, h4, h⟩ := bind_ok_inv h
  obtain ⟨details, h5, h⟩ := bind_ok_inv h
  obtain ⟨metrics, h6, h⟩ := bind_ok_inv h
  obtain ⟨language, h7, h⟩ := bind_ok_inv h
  cases h
  exact ⟨h1, h2, h3, h4, h5, h6, h7⟩

/-- Every completed axios call issues exactly its one request, whatever
the transport answers. -/
theorem completeRequest_requests (t : Transport) (req : HttpRequest) :
    (ComexstatClient.completeRequest t req).requests = [req] := by
  unfold ComexstatClient.completeRequest
  cases t req <;> rfl

/-- A completed axios call whose transport answers success returns the
response body unchanged. -/
theorem completeRequest_success (t : Transport) (req : HttpRequest) (env : Json)
    (h : t req = HttpResult.success env) :
    (ComexstatClient.completeRequest t req).result = Except.ok env := by
  unfold ComexstatClient.completeRequest
  rw [h]

/-- When both period bounds match the pattern, queryData is exactly the
completion of its one POST request. -/
theorem queryData_valid_eq (t : Transport) (flow : String) (period : Period)
    (monthDetail : Bool) (filters : List FilterClause)
    (details metrics : List String) (language : String)
    (hfrom : isYYYYMM period.«from» = true)
    (hto : isYYYYMM period.«to» = true) :
    ComexstatClient.queryData t flow period monthDetail filters details
        metrics language =
      ComexstatClient.completeRequest t
        (queryDataRequest flow period monthDetail filters details metrics
          language) := by
  unfold ComexstatClient.queryData
  rw [hfrom, hto]
  rfl

/-- C2: whenever period.from or period.to fails the YYYY-MM pattern,
each of the three query-style client methods — also reachable by
callers that bypass the tool registry — re-validates the period itself,
signals the malformed-period error, and issues no HTTP request. -/
theorem queryMethods_reject_malformed_period (t : Transport) (flow : String)
    (period : Period) (monthDetail : Bool) (filters : List FilterClause)
    (hfilters : List HFilterClause) (details metrics : List String)
    (language : String)
    (hbad : (isYYYYMM period.«from» && isYYYYMM period.«to») = false) :
    ComexstatClient.queryData t flow period monthDetail filters details
        metrics language =
      ⟨Except.error (ApiError.malformedPeriod periodErrorMessage), [], []⟩ ∧
    ComexstatClient.queryMunicipalitiesData t flow period monthDetail filters
        details metrics language =
      ⟨Except.error (ApiError.malformedPeriod periodErrorMessage), [], []⟩ ∧
    ComexstatClient.queryHistoricalData t flow period monthDetail hfilters
        details metrics language =
      ⟨Except.error (ApiError.malformedPeriod periodErrorMessage), [], []⟩ := by
  unfold ComexstatClient.queryData ComexstatClient.queryMunicipalitiesData
    ComexstatClient.queryHistoricalData
  rw [hbad]
  simp

/-- C2 witness: the malformed bound "2023-1" stops a concrete queryData
call before any request. -/
theorem queryMethods_reject_malformed_period_witness :
    (isYYYYMM "2023-1" && isYYYYMM "2023-12") = false ∧
    ComexstatClient.queryData (stubTransport (Json.obj [])) "export"
        ⟨"2023-1", "2023-12"⟩ false [] ["country"] ["metricFOB"] "pt" =
      ⟨Except.error (ApiError.malformedPeriod periodErrorMessage), [], []⟩ :=
  ⟨rfl,
   (queryMethods_reject_malformed_period (stubTransport (Json.obj []))
     "export" ⟨"2023-1", "2023-12"⟩ false [] [] ["country"] ["metricFOB"]
     "pt" rfl).1⟩

/-- C8: any pair of pattern-valid bounds passes both the period schema
and the pre-flight re-check, whatever their ordering: the queryData
call proceeds to its one HTTP request. -/
theorem patternValid_period_proceeds (t : Transport) (flow : String)
    (period : Period) (monthDetail : Bool) (filters : List FilterClause)
    (details metrics : List String) (language : String)
    (hfrom : isYYYYMM period.«from» = true)
    (hto : isYYYYMM period.«to» = true) :
    parsePeriod (Json.obj [("from", Json.str period.«from»),
                           ("to", Json.str period.«to»)]) =
      Except.ok period ∧
    (ComexstatClient.queryData t flow period monthDetail filters details
        metrics language).requests =
      [queryDataRequest flow period monthDetail filters details metrics
        language] := by
  constructor
  · simp [parsePeriod, reqField, Json.getField, lookupField, parseYYYYMM,
      hfrom, hto, Except.bind]
  · rw [queryData_valid_eq t flow period monthDetail filters details metrics
      language hfrom hto]
    exact completeRequest_requests t _

/-- C8 witness: the reversed, pattern-valid but impossible period from
"2023-13" to "2023-01" still reaches the wire. -/
theorem patternValid_period_proceeds_witness :
    parsePeriod (Json.obj [("from", Json.str "2023-13"),
                           ("to", Json.str "2023-01")]) =
      Except.ok ⟨"2023-13", "2023-01"⟩ ∧
    (ComexstatClient.queryData (stubTransport (Json.obj [])) "export"
        ⟨"2023-13", "2023-01"⟩ false [] ["country"] ["metricFOB"]
        "pt").requests =
      [queryDataRequest "export" ⟨"2023-13", "2023-01"⟩ false []
        ["country"] ["metricFOB"] "pt"] :=
  patternValid_period_proceeds (stubTransport (Json.obj [])) "export"
    ⟨"2023-13", "2023-01"⟩ false [] ["country"] ["metricFOB"] "pt" rfl rfl

/-- C6: a getAuxiliaryTable call that supplies only the table argument
issues one GET to /auxiliary/{table} whose effective query parameters
are page=1 and pageSize=100. -/
theorem getAuxiliaryTable_defaults (t : Transport) (table : String) :
    (runGetAuxiliaryTableTool t (Json.obj [("table", Json.str table)])).requests =
      [⟨Method.get, "/auxiliary/" ++ table,
        [("search", none), ("page", some (Json.num 1)),
         ("pageSize", some (Json.num 100))], none⟩] ∧
    effectiveParams [("search", none), ("page", some (Json.num 1)),
        ("pageSize", some (Json.num 100))] =
      [("page", Json.num 1), ("pageSize", Json.num 100)] := by
  constructor
  · show (ComexstatClient.getAuxiliaryTable t table none none none).requests = _
    unfold ComexstatClient.getAuxiliaryTable ComexstatClient.get
    exact completeRequest_requests t _
  · rfl

/-- C4: when the upstream envelope's data field is an array whose first
entry is x, getFilterValues returns exactly x — one array layer is
unwrapped and every later entry of the outer array is ignored. -/
theorem getFilterValues_unwraps_first (t : Transport)
    (filter language : String) (env x : Json) (rest : List Json)
    (ht : t ⟨Method.get, "/general/filters/" ++ filter,
             [("language", some (Json.str language))], none⟩ =
      HttpResult.success env)
    (hdata : env.getField "data" = some (Json.arr (x :: rest))) :
    (ComexstatClient.getFilterValues t filter language).result =
      Except.ok (some x) := by
  unfold ComexstatClient.getFilterValues ComexstatClient.get
    ComexstatClient.completeRequest
  rw [ht]
  simp [hdata]

/-- C4 witness: the country list is the first inner array and the
second outer entry is discarded. -/
theorem getFilterValues_unwraps_first_witness :
    (ComexstatClient.getFilterValues (stubTransport filterValuesEnv)
        "country" "pt").result =
      Except.ok (some (Json.arr [Json.obj [("id", Json.str "1"),
                                           ("text", Json.str "Brazil")]])) :=
  getFilterValues_unwraps_first (stubTransport filterValuesEnv) "country"
    "pt" filterValuesEnv
    (Json.arr [Json.obj [("id", Json.str "1"), ("text", Json.str "Brazil")]])
    [Json.arr [Json.obj [("id", Json.str "2"), ("text", Json.str "Argentina")]]]
    rfl rfl

/-- C10: when the upstream envelope's data field is an empty array, the
unguarded data[0] access makes getFilterValues complete successfully
with the absent value — no error is raised and no empty list is
substituted. -/
theorem getFilterValues_empty_data_absent (t : Transport)
    (filter language : String) (env : Json)
    (ht : t ⟨Method.get, "/general/filters/" ++ filter,
             [("language", some (Json.str language))], none⟩ =
      HttpResult.success env)
    (hdata : env.getField "data" = some (Json.arr [])) :
    (ComexstatClient.getFilterValues t filter language).result =
      Except.ok none ∧
    (ComexstatClient.getFilterValues t filter language).logs = [] := by
  unfold ComexstatClient.getFilterValues ComexstatClient.get
    ComexstatClient.completeRequest
  rw [ht]
  simp [hdata]

/-- C10 witness: a concrete empty-data envelope yields the successful
absent result. -/
theorem getFilterValues_empty_data_absent_witness :
    (ComexstatClient.getFilterValues (stubTransport emptyDataEnv)
        "country" "pt").result = Except.ok none ∧
    (ComexstatClient.getFilterValues (stubTransport emptyDataEnv)
        "country" "pt").logs = [] :=
  getFilterValues_empty_data_absent (stubTransport emptyDataEnv) "country"
    "pt" emptyDataEnv rfl rfl

/-- C5: an HTTP failure is wrapped into the upstream error carrying the
response status, the body's message field (falling back to the axios
transport message when the field is absent, and to the transport
message when no response exists), and the endpoint; the error is logged
and rethrown, never swallowed.  Stated for GET and for the POST path
used by the query tools. -/
theorem upstream_errors_wrapped_and_logged (t : Transport)
    (endpoint : String) (params : List (String × Option Json))
    (postData body : Json) (status : Nat) (m tm : String) :
    ((t ⟨Method.get, endpoint, params, none⟩ = HttpResult.httpError status body ∧
      body.getField "message" = some (Json.str m) ∧ m ≠ "") →
      ComexstatClient.get t endpoint params =
        ⟨Except.error (ApiError.upstream (some status) (Json.str m) endpoint),
         [⟨Method.get, endpoint, params, none⟩],
         [LogEntry.apiError (some status) (Json.str m)]⟩) ∧
    ((t ⟨Method.get, endpoint, params, none⟩ = HttpResult.httpError status body ∧
      body.getField "message" = none) →
      ComexstatClient.get t endpoint params =
        ⟨Except.error (ApiError.upstream (some status)
           (Json.str (axiosHttpMessage status)) endpoint),
         [⟨Method.get, endpoint, params, none⟩],
         [LogEntry.apiError (some status)
           (Json.str (axiosHttpMessage status))]⟩) ∧
    (t ⟨Method.get, endpoint, params, none⟩ = HttpResult.transportError tm →
      ComexstatClient.get t endpoint params =
        ⟨Except.error (ApiError.upstream none (Json.str tm) endpoint),
         [⟨Method.get, endpoint, params, none⟩],
         [LogEntry.apiError none (Json.str tm)]⟩) ∧
    ((t ⟨Method.post, endpoint, params, some postData⟩ =
        HttpResult.httpError status body ∧
      body.getField "message" = some (Json.str m) ∧ m ≠ "") →
      ComexstatClient.post t endpoint postData params =
        ⟨Except.error (ApiError.upstream (some status) (Json.str m) endpoint),
         [⟨Method.post, endpoint, params, some postData⟩],
         [LogEntry.apiError (some status) (Json.str m)]⟩) := by
  refine ⟨?_, ?_, ?_, ?_⟩
  · rintro ⟨ht, hm, hne⟩
    unfold ComexstatClient.get ComexstatClient.completeRequest
    rw [ht]
    unfold ComexstatClient.handleError
    simp [hm, jsOr, jsTruthy, hne]
  · rintro ⟨ht, hm⟩
    unfold ComexstatClient.get ComexstatClient.completeRequest
    rw [ht]
    unfold ComexstatClient.handleError
    simp [hm, jsOr, jsTruthy]
  · intro ht
    unfold ComexstatClient.get ComexstatClient.completeRequest
    rw [ht]
    unfold ComexstatClient.handleError
    simp [jsOr, jsTruthy]
  · rintro ⟨ht, hm, hne⟩
    unfold ComexstatClient.post ComexstatClient.completeRequest
    rw [ht]
    unfold ComexstatClient.handleError
    simp [hm, jsOr, jsTruthy, hne]

/-- C5 witness: HTTP 400 with body message "Invalid parameters"
surfaces an upstream error with exactly that message and status 400,
after one log entry. -/
theorem upstream_errors_wrapped_and_logged_witness :
    ComexstatClient.get http400Transport "/general" [] =
      ⟨Except.error (ApiError.upstream (some 400)
         (Json.str "Invalid parameters") "/general"),
       [⟨Method.get, "/general", [], none⟩],
       [LogEntry.apiError (some 400) (Json.str "Invalid parameters")]⟩ :=
  (upstream_errors_wrapped_and_logged http400Transport "/general" []
      Json.null (Json.obj [("message", Json.str "Invalid parameters")])
      400 "Invalid parameters" "").1
    ⟨rfl, rfl, by decide⟩

/-- C1: a validated queryData call issues exactly one POST to /general
carrying the language query parameter (defaulted to "pt" by the schema
when the caller omits it) and a body holding exactly the fields flow,
monthDetail, period, filters, details and metrics from the validated
arguments, and hands the upstream envelope back unmodified. -/
theorem queryData_validated_single_post (t : Transport) (raw : Json)
    (args : QueryDataArgs) (h : parseQueryDataArgs raw = Except.ok args) :
    ∃ req, (runQueryDataTool t raw).requests = [req] ∧
      req.method = Method.post ∧
      req.endpoint = "/general" ∧
      effectiveParams req.params = [("language", Json.str args.language)] ∧
      (raw.getField "language" = none → args.language = "pt") ∧
      req.body = some (Json.obj
        [("flow", Json.str args.flow),
         ("monthDetail", Json.bool args.monthDetail),
         ("period", Json.obj [("from", Json.str args.period.«from»),
                              ("to", Json.str args.period.«to»)]),
         ("filters", Json.arr ((args.filters.getD []).map FilterClause.toJson)),
         ("details", Json.arr (args.details.map Json.str)),
         ("metrics", Json.arr (args.metrics.map Json.str))]) ∧
      (∀ env, t req = HttpResult.success env →
        (runQueryDataTool t raw).result = Except.ok env) := by
  obtain ⟨h1, h2, h3, h4, h5, h6, h7⟩ := parseQueryDataArgs_ok_inv h
  obtain ⟨vp, hgp, hpp⟩ := reqField_ok h3
  obtain ⟨hfrom, hto⟩ := parsePeriod_ok hpp
  have hrun : runQueryDataTool t raw =
      ⟨(ComexstatClient.completeRequest t (queryDataRequest args.flow
          args.period args.monthDetail (args.filters.getD []) args.details
          args.metrics args.language)).result.mapError ToolError.api,
       (ComexstatClient.completeRequest t (queryDataRequest args.flow
          args.period args.monthDetail (args.filters.getD []) args.details
          args.metrics args.language)).requests,
       (ComexstatClient.completeRequest t (queryDataRequest args.flow
          args.period args.monthDetail (args.filters.getD []) args.details
          args.metrics args.language)).logs⟩ := by
    simp only [runQueryDataTool, h]
    rw [queryData_valid_eq t args.flow args.period args.monthDetail
      (args.filters.getD []) args.details args.metrics args.language
      hfrom hto]
  refine ⟨queryDataRequest args.flow args.period args.monthDetail
      (args.filters.getD []) args.details args.metrics args.language,
    ?_, rfl, rfl, rfl, ?_, rfl, ?_⟩
  · rw [hrun]
    exact completeRequest_requests t _
  · intro hnone
    rcases defField_ok h7 with ⟨_, hd⟩ | ⟨v, hv, _⟩
    · exact hd
    · rw [hnone] at hv
      cases hv
  · intro env henv
    rw [hrun]
    show (ComexstatClient.completeRequest t _).result.mapError ToolError.api =
      Except.ok env
    rw [completeRequest_success t _ env henv]
    rfl

/-- C1 witness: the concrete validated export query issues its single
POST to /general with language "pt" defaulted and the exact body, and
passes the stubbed envelope through. -/
theorem queryData_validated_single_post_witness :
    ∃ req,
      (runQueryDataTool (stubTransport (Json.obj [("success", Json.bool true)]))
          exampleQueryRaw).requests = [req] ∧
      req.method = Method.post ∧
      req.endpoint = "/general" ∧
      effectiveParams req.params =
        [("language", Json.str exampleQueryArgs.language)] ∧
      (exampleQueryRaw.getField "language" = none →
        exampleQueryArgs.language = "pt") ∧
      req.body = some (Json.obj
        [("flow", Json.str exampleQueryArgs.flow),
         ("monthDetail", Json.bool exampleQueryArgs.monthDetail),
         ("period", Json.obj
           [("from", Json.str exampleQueryArgs.period.«from»),
            ("to", Json.str exampleQueryArgs.period.«to»)]),
         ("filters", Json.arr ((exampleQueryArgs.filters.getD []).map
            FilterClause.toJson)),
         ("details", Json.arr (exampleQueryArgs.details.map Json.str)),
         ("metrics", Json.arr (exampleQueryArgs.metrics.map Json.str))]) ∧
      (∀ env,
        stubTransport (Json.obj [("success", Json.bool true)]) req =
          HttpResult.success env →
        (runQueryDataTool (stubTransport (Json.obj [("success", Json.bool true)]))
            exampleQueryRaw).result = Except.ok env) :=
  queryData_validated_single_post
    (stubTransport (Json.obj [("success", Json.bool true)]))
    exampleQueryRaw exampleQueryArgs rfl

/-- C3: a queryData invocation whose flow value lies outside the
two-value enum, or one of whose filter clauses names a filter outside
the 8-value enum, or one of whose metrics entries lies outside the
6-value enum, fails validation and issues no HTTP request. -/
theorem queryData_rejects_invalid_enums (t : Transport) (raw : Json)
    (hbad :
      (∃ j, raw.getField "flow" = some j ∧
        ∀ s ∈ flowEnum, j ≠ Json.str s) ∨
      (∃ fl fj, raw.getField "filters" = some (Json.arr fl) ∧ fj ∈ fl ∧
        ∀ s ∈ filterEnum, fj.getField "filter" ≠ some (Json.str s)) ∨
      (∃ ml mj, raw.getField "metrics" = some (Json.arr ml) ∧ mj ∈ ml ∧
        ∀ s ∈ metricsEnum, mj ≠ Json.str s)) :
    (∃ e, (runQueryDataTool t raw).result =
      Except.error (ToolError.validation e)) ∧
    (runQueryDataTool t raw).requests = [] := by
  cases hp : parseQueryDataArgs raw with
  | error e =>
    exact ⟨⟨e, by simp [runQueryDataTool, hp]⟩, by simp [runQueryDataTool, hp]⟩
  | ok args =>
    exfalso
    obtain ⟨h1, h2, h3, h4, h5, h6, h7⟩ := parseQueryDataArgs_ok_inv hp
    rcases hbad with ⟨j, hj, hne⟩ | ⟨fl, fj, hfl, hmem, hne⟩ |
      ⟨ml, mj, hml, hmem, hne⟩
    · obtain ⟨v, hget, hpe⟩ := reqField_ok h1
      rw [hj] at hget
      injection hget with hget
      subst hget
      obtain ⟨hjs, hmem'⟩ := parseEnum_ok hpe
      exact hne args.flow hmem' hjs
    · rcases optField_ok h4 with ⟨hnone, _⟩ | ⟨v, a, hget, hpv, _⟩
      · rw [hfl] at hnone
        cases hnone
      · rw [hfl] at hget
        injection hget with hget
        subst hget
        obtain ⟨xs, hxs, hall⟩ := parseArr_ok hpv
        injection hxs with hxs
        subst hxs
        obtain ⟨c, hc⟩ := hall fj hmem
        obtain ⟨s, hsmem, hsget⟩ := parseFilterClause_ok hc
        exact hne s hsmem hsget
    · obtain ⟨v, hget, hpv⟩ := reqField_ok h6
      rw [hml] at hget
      injection hget with hget
      subst hget
      obtain ⟨xs, hxs, hall⟩ := parseArr_ok hpv
      injection hxs with hxs
      subst hxs
      obtain ⟨s, hs⟩ := hall mj hmem
      obtain ⟨hmj, hsmem⟩ := parseEnum_ok hs
      exact hne s hsmem hmj

/-- C3 witness: flow "both" is rejected with no request on the wire. -/
theorem queryData_rejects_invalid_enums_witness :
    (∃ e, (runQueryDataTool (stubTransport (Json.obj []))
        (Json.obj [("flow", Json.str "both")])).result =
      Except.error (ToolError.validation e)) ∧
    (runQueryDataTool (stubTransport (Json.obj []))
        (Json.obj [("flow", Json.str "both")])).requests = [] :=
  queryData_rejects_invalid_enums (stubTransport (Json.obj []))
    (Json.obj [("flow", Json.str "both")])
    (Or.inl ⟨Json.str "both", rfl, by
      intro s hs hcontra
      injection hcontra with hcontra
      subst hcontra
      exact absurd hs (by decide)⟩)

/-- C9: two runs of queryData with identical arguments put two requests
on the wire, equal as whole requests and in particular with identical
serialized bodies — request construction is a pure function of the
arguments and nothing is cached between the runs. -/
theorem queryData_idempotent_requests (t : Transport) (flow : String)
    (period : Period) (monthDetail : Bool) (filters : List FilterClause)
    (details metrics : List String) (language : String)
    (hfrom : isYYYYMM period.«from» = true)
    (hto : isYYYYMM period.«to» = true) :
    runQueryDataTwice t flow period monthDetail filters details metrics
        language =
      [queryDataRequest flow period monthDetail filters details metrics
        language,
       queryDataRequest flow period monthDetail filters details metrics
        language] ∧
    (runQueryDataTwice t flow period monthDetail filters details metrics
        language).map HttpRequest.body =
      [some (queryBody flow monthDetail period
         (filters.map FilterClause.toJson) details metrics),
       some (queryBody flow monthDetail period
         (filters.map FilterClause.toJson) details metrics)] := by
  have hr := queryData_valid_eq t flow period monthDetail filters details
    metrics language hfrom hto
  constructor
  · unfold runQueryDataTwice
    rw [hr, completeRequest_requests]
    rfl
  · unfold runQueryDataTwice
    rw [hr, completeRequest_requests]
    rfl

/-- C9 witness: a concrete repeated call issues two equal requests. -/
theorem queryData_idempotent_requests_witness :
    runQueryDataTwice (stubTransport (Json.obj [])) "export"
        ⟨"2023-01", "2023-12"⟩ false [⟨"country", [105]⟩] ["country"]
        ["metricFOB"] "pt" =
      [queryDataRequest "export" ⟨"2023-01", "2023-12"⟩ false
        [⟨"country", [105]⟩] ["country"] ["metricFOB"] "pt",
       queryDataRequest "export" ⟨"2023-01", "2023-12"⟩ false
        [⟨"country", [105]⟩] ["country"] ["metricFOB"] "pt"] :=
  (queryData_idempotent_requests (stubTransport (Json.obj [])) "export"
    ⟨"2023-01", "2023-12"⟩ false [⟨"country", [105]⟩] ["country"]
    ["metricFOB"] "pt" rfl rfl).1

/-- C7 counterexample: getEconomicBlocks called with every parameter
omitted sends only language=pt — no page=1 default is applied, because
its schema has no page parameter at all. -/
theorem economicBlocks_no_page_default :
    (runGetEconomicBlocksTool (stubTransport (Json.obj []))
        (Json.obj [])).requests.map (fun r => effectiveParams r.params) =
      [[("language", Json.str "pt")]] := by
  rfl

/-- C7 amended: all parameters of getEconomicBlocks, getHarmonizedSystem
and getNBM are optional; omitted parameters default to language="pt" for
all three, and additionally to page=1 with perPage=10 for
getHarmonizedSystem and page=1 with perPage=5 for getNBM;
getEconomicBlocks has no page or perPage parameter. -/
theorem tableTools_defaults :
    parseEconomicBlocksArgs (Json.obj []) = Except.ok ⟨"pt", none, none⟩ ∧
    parseHarmonizedSystemArgs (Json.obj []) = Except.ok ⟨"pt", 1, 10, none⟩ ∧
    parseNBMArgs (Json.obj []) = Except.ok ⟨"pt", 1, 5, none, none⟩ ∧
    (runGetHarmonizedSystemTool (stubTransport (Json.obj []))
        (Json.obj [])).requests.map (fun r => effectiveParams r.params) =
      [[("language", Json.str "pt"), ("page", Json.num 1),
        ("perPage", Json.num 10)]] ∧
    (runGetNBMTool (stubTransport (Json.obj []))
        (Json.obj [])).requests.map (fun r => effectiveParams r.params) =
      [[("language", Json.str "pt"), ("page", Json.num 1),
        ("perPage", Json.num 5)]] ∧
    (runGetEconomicBlocksTool (stubTransport (Json.obj []))
        (Json.obj [])).requests.map (fun r => effectiveParams r.params) =
      [[("language", Json.str "pt")]] :=
  ⟨rfl, rfl, rfl, rfl, rfl, rfl⟩
